import Mathlib

/-!
# elm-pages `generator/src/develop.js`

A shallow embedding of the build orchestration in `develop.js`: the
`transformPath` hook of the static-asset copy stage, the completion handler
of `run`, and the configuration object built by `webpackOptions`.

JavaScript strings are sequences of UTF-16 code units; the functions that
compute on strings (`indexOf`, `substring`, `RegExp.test`) are modelled on
lists of code units. Configuration values that are only carried around
(loader names, glob strings, manifest fields) are kept as `String`.
-/

namespace Develop

/-! ## JavaScript strings -/

/-- A UTF-16 code unit. -/
abbrev CodeUnit := Nat

/-- A JavaScript string value: its sequence of UTF-16 code units. -/
abbrev JSString := List CodeUnit

/-- UTF-16 encoding of one Unicode scalar value. -/
def encodeChar (c : Char) : List CodeUnit :=
  if c.toNat < 0x10000 then [c.toNat]
  else [0xD800 + (c.toNat - 0x10000) / 0x400, 0xDC00 + (c.toNat - 0x10000) % 0x400]

/-- The JavaScript string denoted by a string literal. -/
def utf16 (s : String) : JSString :=
  s.toList.flatMap encodeChar

/-- Worker of `String.prototype.indexOf`: scan for the first position at
which `searchString` occurs, `k` being the position of the current suffix. -/
def indexOfFrom (searchString : JSString) : JSString → Nat → Int
  | [], k => if searchString = [] then (k : Int) else -1
  | c :: cs, k =>
    if searchString.isPrefixOf (c :: cs) then (k : Int)
    else indexOfFrom searchString cs (k + 1)

/-- `String.prototype.indexOf(searchString)`: the smallest index at which
`searchString` occurs in `s`, or `-1` when it does not occur. -/
def indexOf (s : JSString) (searchString : JSString) : Int :=
  indexOfFrom searchString s 0

/-- `String.prototype.substring(start)`: `start` is clamped to `[0, length]`
and the code units from there to the end are returned. -/
def substring (s : JSString) (start : Int) : JSString :=
  let finalStart := min (max start 0) (s.length : Int)
  s.drop finalStart.toNat

/-- `transformPath(targetPath, absolutePath)` of the `CopyPlugin` pattern
(develop.js:69-72):
`return targetPath.substring(targetPath.indexOf("/") + 1);` -/
def transformPath (targetPath : JSString) (_absolutePath : JSString) : JSString :=
  substring targetPath (indexOf targetPath (utf16 "/") + 1)

/-! ## Regular expressions

The regular-expression literals of `develop.js` use literal characters, `.`,
a digit class, `^`, `$`, sequencing, `|`, `*`, `?` and groups. None of them
has a back-reference or a look-around, so whether `RegExp.prototype.test`
finds a match is decided by the set of ways the pattern can consume input,
which `Re.ends` enumerates. -/

/-- Abstract syntax of the regular-expression literals that occur in
`develop.js`. -/
inductive Re where
  /-- The empty pattern. -/
  | empty
  /-- A literal pattern character, as a code unit. -/
  | unit (u : CodeUnit)
  /-- The atom `.`. -/
  | any
  /-- A class range; the only one in `develop.js` is `[0-9]`, which the `i`
  flag does not affect. -/
  | range (lo hi : Char)
  /-- The assertion `^`. -/
  | bol
  /-- The assertion `$`. -/
  | eol
  /-- Sequencing of two patterns. -/
  | seq (a b : Re)
  /-- Alternation `a|b`. -/
  | alt (a b : Re)
  /-- Repetition `a*`. -/
  | star (a : Re)
  /-- Option `a?`. -/
  | opt (a : Re)
  /-- A group, capturing `(a)` or not `(?:a)`. -/
  | group (capturing : Bool) (a : Re)
  deriving DecidableEq, Repr

/-- The pattern matching exactly the characters of `s` (with `\` escapes of
the source already resolved). -/
def Re.lit (s : String) : Re :=
  (utf16 s).foldr (fun u r => Re.seq (Re.unit u) r) Re.empty

/-- LineTerminator code units, which `.` does not match: LF, CR, LS, PS. -/
def isLineTerminator (u : CodeUnit) : Bool :=
  u == 0x000A || u == 0x000D || u == 0x2028 || u == 0x2029

/-- Canonicalize of the `i` flag, on the ASCII letters: the patterns of this
file contain ASCII characters only, and a code unit of 128 or more never
canonicalizes to one below 128. -/
def canonicalize (ignoreCase : Bool) (u : CodeUnit) : CodeUnit :=
  if ignoreCase && (97 ≤ u && u ≤ 122) then u - 32 else u

/-- All remainders reachable by repeating the one-step matcher `f`, each
further iteration consuming at least one code unit (an iteration that matches
the empty string adds nothing). `fuel` bounds the number of iterations; the
length of the input suffices. -/
def starClosure (f : JSString → List JSString) : Nat → JSString → List JSString
  | 0, s => [s]
  | fuel + 1, s =>
    s :: ((f s).filter (fun t => t.length < s.length)).flatMap (starClosure f fuel)

/-- The remainders of the input left after the pattern has matched at the
front of suffix `s` of an input of length `n`: one entry per way of matching.
`^` holds where the whole input remains, `$` where nothing remains (no `m`
flag is used in `develop.js`). -/
def Re.ends (ignoreCase : Bool) (n : Nat) : Re → JSString → List JSString
  | .empty, s => [s]
  | .unit c, s =>
    match s with
    | u :: t => if canonicalize ignoreCase u = canonicalize ignoreCase c then [t] else []
    | [] => []
  | .any, s =>
    match s with
    | u :: t => if isLineTerminator u then [] else [t]
    | [] => []
  | .range lo hi, s =>
    match s with
    | u :: t =>
      if lo.toNat ≤ u ∧ u ≤ hi.toNat then [t] else []
    | [] => []
  | .bol, s => if s.length = n then [s] else []
  | .eol, s => if s = [] then [s] else []
  | .seq a b, s => (Re.ends ignoreCase n a s).flatMap (Re.ends ignoreCase n b)
  | .alt a b, s => Re.ends ignoreCase n a s ++ Re.ends ignoreCase n b s
  | .star a, s => starClosure (Re.ends ignoreCase n a) s.length s
  | .opt a, s => Re.ends ignoreCase n a s ++ [s]
  | .group _ a, s => Re.ends ignoreCase n a s

/-- A regular-expression literal `/source/flags`; the only flag used in
`develop.js` is `i`. -/
structure RegExp where
  source : Re
  ignoreCase : Bool
  deriving DecidableEq, Repr

/-- `RegExp.prototype.test(str)` for a pattern without `g` or `y` flag: a
match may start at any position of `str`, the end of the string included. -/
def RegExp.test (r : RegExp) (str : JSString) : Bool :=
  str.tails.any (fun s => !(Re.ends r.ignoreCase str.length r.source s).isEmpty)

/-! ## Inputs and environment -/

/-- The `serviceworker` object of the manifest configuration. -/
structure ManifestServiceworker where
  scope : String
  deriving DecidableEq, Repr

/-- The fields of `manifestConfig` read by `webpackOptions`. -/
structure ManifestConfig where
  sourceIcon : String
  name : String
  short_name : String
  description : String
  background_color : String
  theme_color : String
  display : String
  orientation : String
  serviceworker : ManifestServiceworker
  start_url : String
  deriving DecidableEq, Repr

/-- The third argument of `webpackOptions`:
`{ debug, fileContents, manifestConfig }`. Each element of `fileContents`
is a two-element array `[path, content]`. The development branch never reads
`fileContents` (`start` passes none). -/
structure Options where
  debug : Bool
  fileContents : List (String × String)
  manifestConfig : ManifestConfig
  deriving DecidableEq, Repr

/-- What `webpackOptions` reads from the Node.js runtime: `process.cwd()`,
`__dirname`, `path.join`, `path.resolve` and `require.resolve`. -/
structure Env where
  cwd : String
  dirname : String
  pathJoin : String → String → String
  pathResolve : String → String → String
  requireResolve : String → String

/-! ## Plugin options -/

/-- One pattern object of `CopyPlugin`. The field `from_` is the key `from`. -/
structure CopyPattern where
  from_ : String
  transformPath : JSString → JSString → JSString

/-- The `pngquant` object of the `ImageminPlugin` options. -/
structure PngquantOptions where
  quality : String
  speed : Nat
  deriving DecidableEq, Repr

/-- The argument of `imageminMozjpeg(...)`. -/
structure MozjpegOptions where
  quality : Nat
  progressive : Bool
  deriving DecidableEq, Repr

/-- An entry of the `plugins` array of the `ImageminPlugin` options. -/
inductive ImageminCodec where
  | imageminMozjpeg (options : MozjpegOptions)
  deriving DecidableEq, Repr

/-- Options of `new ImageminPlugin({...})`. -/
structure ImageminOptions where
  test : RegExp
  disable : Bool
  pngquant : PngquantOptions
  plugins : List ImageminCodec
  deriving DecidableEq, Repr

/-- Options of `new PrerenderSPAPlugin({...})`. -/
structure PrerenderOptions where
  staticDir : String
  routes : List String
  renderAfterDocumentEvent : String
  deriving DecidableEq, Repr

/-- Options of `new HTMLWebpackPlugin({...})`. -/
structure HTMLOptions where
  inject : String
  template : String
  deriving DecidableEq, Repr

/-- The `icons` object of the favicons options. -/
structure IconsOptions where
  android : Bool
  appleIcon : Bool
  appleStartup : Bool
  coast : Bool
  favicons : Bool
  firefox : Bool
  windows : Bool
  yandex : Bool
  deriving DecidableEq, Repr

/-- The `favicons` object of the `FaviconsWebpackPlugin` options; `none` is
the JavaScript `null`. -/
structure FaviconsConfig where
  path : String
  appName : String
  appShortName : String
  appDescription : String
  developerName : Option String
  developerURL : Option String
  dir : String
  lang : String
  background : String
  theme_color : String
  appleStatusBarStyle : String
  display : String
  orientation : String
  scope : String
  start_url : String
  version : String
  logging : Bool
  pixel_art : Bool
  loadManifestWithCredentials : Bool
  icons : IconsOptions
  deriving DecidableEq, Repr

/-- Options of `new FaviconsWebpackPlugin({...})`. -/
structure FaviconsOptions where
  logo : String
  favicons : FaviconsConfig
  deriving DecidableEq, Repr

/-- The `options` object of a runtime-caching entry. -/
structure CacheOptions where
  cacheName : String
  deriving DecidableEq, Repr

/-- One entry of `runtimeCaching`. -/
structure RuntimeCaching where
  urlPattern : RegExp
  handler : String
  options : CacheOptions
  deriving DecidableEq, Repr

/-- Options of `new GenerateSW({...})`. The field `include_` is the key
`include`. -/
structure GenerateSWOptions where
  include_ : List RegExp
  exclude : List RegExp
  navigateFallback : String
  swDest : String
  runtimeCaching : List RuntimeCaching
  deriving DecidableEq, Repr

/-- One object `{ name, content }` of the array given to `AddFilesPlugin`. -/
structure AddedFile where
  name : String
  content : String
  deriving DecidableEq, Repr

/-- A plugin instance `new P(options)`, one constructor per plugin class
instantiated in `develop.js`. -/
inductive Plugin where
  | CopyPlugin (patterns : List CopyPattern)
  | ImageminPlugin (options : ImageminOptions)
  | PrerenderSPAPlugin (options : PrerenderOptions)
  | HTMLWebpackPlugin (options : HTMLOptions)
  | FaviconsWebpackPlugin (options : FaviconsOptions)
  | GenerateSW (options : GenerateSWOptions)
  | AddFilesPlugin (files : List AddedFile)

/-! ## Module rules and the configuration object -/

/-- The value of a rule's `exclude`: one regular expression or an array. -/
inductive Condition where
  | regExp (r : RegExp)
  | array (rs : List RegExp)
  deriving DecidableEq, Repr

/-- The `options` object of the Elm loader; `none` is an absent key. -/
structure LoaderOptions where
  optimize : Option Bool
  debug : Option Bool
  forceWatch : Option Bool
  deriving DecidableEq, Repr

/-- An object `{ loader, options }` of a rule's `use`. -/
structure UseEntry where
  loader : String
  options : Option LoaderOptions
  deriving DecidableEq, Repr

/-- The value of a rule's `use`: one object or an array of objects. -/
inductive Use where
  | object (u : UseEntry)
  | array (us : List UseEntry)
  deriving DecidableEq, Repr

/-- A member of `module.rules`; `none` is an absent key. -/
structure Rule where
  test : RegExp
  exclude : Condition
  use : Option Use
  loaders : Option (List String)
  loader : Option String
  deriving DecidableEq, Repr

/-- The `entry` object. -/
structure Entry where
  hello : String
  deriving DecidableEq, Repr

/-- The `output` object. -/
structure Output where
  publicPath : String
  deriving DecidableEq, Repr

/-- The `resolve` object. -/
structure Resolve where
  modules : List String
  extensions : List String
  deriving DecidableEq, Repr

/-- The `module` object. -/
structure Module where
  rules : List Rule
  deriving DecidableEq, Repr

/-- The `stats` object. -/
structure StatsOptions where
  all : Bool
  modules : Bool
  maxModules : Nat
  errors : Bool
  warnings : Bool
  moduleTrace : Bool
  errorDetails : Bool
  deriving DecidableEq, Repr

/-- The configuration object returned by `webpackOptions`. -/
structure Configuration where
  entry : Entry
  mode : String
  plugins : List Plugin
  output : Output
  resolve : Resolve
  module : Module
  stats : StatsOptions

/-- The second argument of the two `merge` calls: an object with the keys
`plugins` (production only) and `module`; `none` is an absent key. -/
structure ConfigurationPart where
  plugins : Option (List Plugin)
  module : Option Module

/-- `merge` of the `webpack-merge` package (required at develop.js:8), as
its documentation states it: arrays under the same key are concatenated,
the first argument's elements first; objects under the same key are merged
key by key; a key present in only one argument is kept. -/
def merge (a : Configuration) (b : ConfigurationPart) : Configuration :=
  { a with
    plugins :=
      match b.plugins with
      | some ps => a.plugins ++ ps
      | none => a.plugins
    module :=
      match b.module with
      | some m => { rules := a.module.rules ++ m.rules }
      | none => a.module }

/-! ## `webpackOptions` (develop.js:57-294) -/

/-- The class `[0-9]`. -/
def digit : Re := Re.range '0' '9'

/-- The literal `/\.(jpe?g|png|gif|svg)$/i` (develop.js:76). -/
def imageminTest : RegExp :=
  { source :=
      Re.seq (Re.lit ".")
        (Re.seq
          (Re.group true
            (Re.alt (Re.seq (Re.lit "jp") (Re.seq (Re.opt (Re.lit "e")) (Re.lit "g")))
              (Re.alt (Re.lit "png") (Re.alt (Re.lit "gif") (Re.lit "svg")))))
          Re.eol)
    ignoreCase := true }

/-- The literal `/^index\.html$/` (develop.js:148). -/
def includeIndexHtml : RegExp :=
  { source := Re.seq Re.bol (Re.seq (Re.lit "index.html") Re.eol), ignoreCase := false }

/-- The literal `/\.js$/` (develop.js:149 and 195). -/
def jsFile : RegExp :=
  { source := Re.seq (Re.lit ".js") Re.eol, ignoreCase := false }

/-- The literal `/content\.txt$/` (develop.js:150). -/
def includeContentTxt : RegExp :=
  { source := Re.seq (Re.lit "content.txt") Re.eol, ignoreCase := false }

/-- The literal `/\.(?:png|gif|jpg|jpeg|svg)$/` (develop.js:151 and 176). -/
def imageFile : RegExp :=
  { source :=
      Re.seq (Re.lit ".")
        (Re.seq
          (Re.group false
            (Re.alt (Re.lit "png")
              (Re.alt (Re.lit "gif")
                (Re.alt (Re.lit "jpg") (Re.alt (Re.lit "jpeg") (Re.lit "svg"))))))
          Re.eol)
    ignoreCase := false }

/-- The literal `/android-chrome-.*\.png$/` (develop.js:154). -/
def excludeAndroidChrome : RegExp :=
  { source :=
      Re.seq (Re.lit "android-chrome-")
        (Re.seq (Re.star Re.any) (Re.seq (Re.lit ".png") Re.eol))
    ignoreCase := false }

/-- The literal `/apple-touch-icon.*\.png/` (develop.js:155). -/
def excludeAppleTouchIcon : RegExp :=
  { source := Re.seq (Re.lit "apple-touch-icon") (Re.seq (Re.star Re.any) (Re.lit ".png"))
    ignoreCase := false }

/-- The literal `/favicon-.*\.png/` (develop.js:156). -/
def excludeFavicon : RegExp :=
  { source := Re.seq (Re.lit "favicon-") (Re.seq (Re.star Re.any) (Re.lit ".png"))
    ignoreCase := false }

/-- The literal `/^https:\/\/fonts\.gstatic\.com/` (develop.js:162). -/
def fontsGstatic : RegExp :=
  { source := Re.seq Re.bol (Re.lit "https://fonts.gstatic.com"), ignoreCase := false }

/-- The literal `/^https:\/\/fonts\.googleapis\.com/` (develop.js:169). -/
def fontsGoogleapis : RegExp :=
  { source := Re.seq Re.bol (Re.lit "https://fonts.googleapis.com"), ignoreCase := false }

/-- The literal `/node_modules/`. -/
def nodeModules : RegExp :=
  { source := Re.lit "node_modules", ignoreCase := false }

/-- The literal `/elm-stuff/`. -/
def elmStuff : RegExp :=
  { source := Re.lit "elm-stuff", ignoreCase := false }

/-- The literal `/\.scss$/` (develop.js:202). -/
def scssFile : RegExp :=
  { source := Re.seq (Re.lit ".scss") Re.eol, ignoreCase := false }

/-- The literal `/\.css$/` (develop.js:212). -/
def cssFile : RegExp :=
  { source := Re.seq (Re.lit ".css") Re.eol, ignoreCase := false }

/-- The literal `/\.(ttf|eot|svg)(\?v=[0-9]\.[0-9]\.[0-9])?$/` (develop.js:220). -/
def fontFile : RegExp :=
  { source :=
      Re.seq (Re.lit ".")
        (Re.seq (Re.group true (Re.alt (Re.lit "ttf") (Re.alt (Re.lit "eot") (Re.lit "svg"))))
          (Re.seq
            (Re.opt
              (Re.group true
                (Re.seq (Re.lit "?v=")
                  (Re.seq digit
                    (Re.seq (Re.lit ".") (Re.seq digit (Re.seq (Re.lit ".") digit)))))))
            Re.eol))
    ignoreCase := false }

/-- The literal `/\.(jpe?g|png|gif|svg|html)$/i` (develop.js:225). -/
def assetFile : RegExp :=
  { source :=
      Re.seq (Re.lit ".")
        (Re.seq
          (Re.group true
            (Re.alt (Re.seq (Re.lit "jp") (Re.seq (Re.opt (Re.lit "e")) (Re.lit "g")))
              (Re.alt (Re.lit "png")
                (Re.alt (Re.lit "gif") (Re.alt (Re.lit "svg") (Re.lit "html"))))))
          Re.eol)
    ignoreCase := true }

/-- The literal `/\.elm$/` (develop.js:258 and 275). -/
def elmFile : RegExp :=
  { source := Re.seq (Re.lit ".elm") Re.eol, ignoreCase := false }

/-- The `plugins` array of `const common` (develop.js:65-184). -/
def commonPlugins (env : Env) (production : Bool) (routes : List String)
    (manifestConfig : ManifestConfig) : List Plugin :=
  [ Plugin.CopyPlugin
      [ { from_ := "static/**/*"
          transformPath := fun targetPath absolutePath =>
            transformPath targetPath absolutePath } ],
    Plugin.ImageminPlugin
      { test := imageminTest
        disable := !production
        pngquant := { quality := "40-70", speed := 1 }
        plugins := [ImageminCodec.imageminMozjpeg { quality := 75, progressive := false }] },
    Plugin.PrerenderSPAPlugin
      { staticDir := env.pathJoin env.cwd "dist"
        routes := routes
        renderAfterDocumentEvent := "prerender-trigger" },
    Plugin.HTMLWebpackPlugin
      { inject := "head"
        template := env.pathResolve env.dirname "template.html" },
    Plugin.FaviconsWebpackPlugin
      { logo := env.pathResolve env.cwd ("./" ++ manifestConfig.sourceIcon)
        favicons :=
          { path := "/"
            appName := manifestConfig.name
            appShortName := manifestConfig.short_name
            appDescription := manifestConfig.description
            developerName := none
            developerURL := none
            dir := "auto"
            lang := "en-US"
            background := manifestConfig.background_color
            theme_color := manifestConfig.theme_color
            appleStatusBarStyle := "black-translucent"
            display := manifestConfig.display
            orientation := manifestConfig.orientation
            scope := manifestConfig.serviceworker.scope
            start_url := manifestConfig.start_url
            version := "1.0"
            logging := false
            pixel_art := false
            loadManifestWithCredentials := false
            icons :=
              { android := true
                appleIcon := true
                appleStartup := false
                coast := false
                favicons := true
                firefox := false
                windows := false
                yandex := false } } },
    Plugin.GenerateSW
      { include_ := [includeIndexHtml, jsFile, includeContentTxt, imageFile]
        exclude := [excludeAndroidChrome, excludeAppleTouchIcon, excludeFavicon]
        navigateFallback := "index.html"
        swDest := "service-worker.js"
        runtimeCaching :=
          [ { urlPattern := fontsGstatic
              handler := "CacheFirst"
              options := { cacheName := "google-fonts-webfonts" } },
            { urlPattern := fontsGoogleapis
              handler := "StaleWhileRevalidate"
              options := { cacheName := "google-fonts-stylesheets" } },
            { urlPattern := imageFile
              handler := "CacheFirst"
              options := { cacheName := "images" } } ] } ]

/-- The `module.rules` array of `const common` (develop.js:193-229). -/
def commonRules (env : Env) : List Rule :=
  [ { test := jsFile
      exclude := Condition.regExp nodeModules
      use := some (Use.object { loader := env.requireResolve "babel-loader", options := none })
      loaders := none
      loader := none },
    { test := scssFile
      exclude := Condition.array [elmStuff, nodeModules]
      use := none
      loaders := some
        [ env.requireResolve "style-loader",
          env.requireResolve "css-loader",
          env.requireResolve "sass-loader" ]
      loader := none },
    { test := cssFile
      exclude := Condition.array [elmStuff, nodeModules]
      use := none
      loaders := some [env.requireResolve "style-loader", env.requireResolve "css-loader"]
      loader := none },
    { test := fontFile
      exclude := Condition.array [elmStuff, nodeModules]
      use := none
      loaders := none
      loader := some (env.requireResolve "file-loader") },
    { test := assetFile
      exclude := Condition.array [elmStuff, nodeModules]
      use := none
      loaders := none
      loader := some (env.requireResolve "file-loader") } ]

/-- The object `const common` (develop.js:62-242). -/
def common (env : Env) (production : Bool) (routes : List String)
    (manifestConfig : ManifestConfig) : Configuration :=
  { entry := { hello := "./index.js" }
    mode := if production then "production" else "development"
    plugins := commonPlugins env production routes manifestConfig
    output := { publicPath := "/" }
    resolve :=
      { modules := [env.pathResolve env.cwd "./node_modules"]
        extensions := [".js", ".elm", ".scss", ".png", ".html"] }
    module := { rules := commonRules env }
    stats :=
      { all := false
        modules := true
        maxModules := 0
        errors := true
        warnings := true
        moduleTrace := true
        errorDetails := true } }

/-- The Elm rule merged in production (develop.js:257-266). -/
def productionElmRule (env : Env) : Rule :=
  { test := elmFile
    exclude := Condition.array [elmStuff, nodeModules]
    use := some (Use.object
      { loader := env.requireResolve "elm-webpack-loader"
        options := some { optimize := some true, debug := none, forceWatch := none } })
    loaders := none
    loader := none }

/-- The Elm rule merged in development (develop.js:274-289). -/
def developmentElmRule (env : Env) (debug : Bool) : Rule :=
  { test := elmFile
    exclude := Condition.array [elmStuff, nodeModules]
    use := some (Use.array
      [ { loader := env.requireResolve "elm-hot-webpack-loader", options := none },
        { loader := env.requireResolve "elm-webpack-loader"
          options := some { optimize := none, debug := some debug, forceWatch := some true } } ])
    loaders := none
    loader := none }

/-- `webpackOptions(production, routes, { debug, fileContents, manifestConfig })`
(develop.js:57-294). -/
def webpackOptions (env : Env) (production : Bool) (routes : List String)
    (options : Options) : Configuration :=
  if production then
    merge (common env production routes options.manifestConfig)
      { plugins := some
          [ Plugin.AddFilesPlugin
              (options.fileContents.map fun (path, content) =>
                { name := path, content := content }) ]
        module := some { rules := [productionElmRule env] } }
  else
    merge (common env production routes options.manifestConfig)
      { plugins := none
        module := some { rules := [developmentElmRule env options.debug] } }

/-! ## `run` (develop.js:37-55) -/

/-- The error object the compiler hands to the completion handler. -/
structure WebpackError where
  message : String
  deriving DecidableEq, Repr

/-- The argument of `stats.toString({...})`. -/
structure ToStringOptions where
  chunks : Bool
  colors : Bool
  deriving DecidableEq, Repr

/-- The `stats` object of a finished compilation: the compilation errors it
records and its rendering by `toString`. -/
structure Stats where
  errors : List String
  toString : ToStringOptions → String

/-- `stats.hasErrors()`: the compilation recorded at least one error. -/
def Stats.hasErrors (stats : Stats) : Bool :=
  !stats.errors.isEmpty

/-- The observable actions of the completion handler. `callback args` is a
call of the caller-supplied callback with the argument list `args`;
`typeError` is the exception raised by a property access on `undefined`. -/
inductive Effect where
  | consoleError (err : WebpackError)
  | processExit (code : Nat)
  | callback (args : List String)
  | consoleLog (text : String)
  | typeError
  deriving DecidableEq, Repr

/-- Whether the handler is still executing statements. -/
inductive Status where
  | running
  | exited (code : Nat)
  | threw
  deriving DecidableEq, Repr

/-- The actions performed so far, oldest first, and the execution status. -/
structure Process where
  trace : List Effect
  status : Status
  deriving DecidableEq, Repr

/-- The state before the handler's first statement. -/
def Process.start : Process :=
  { trace := [], status := Status.running }

/-- Execute one action: nothing happens once the process has exited or an
exception is propagating; `process.exit(code)` does not return. -/
def Process.perform (p : Process) (e : Effect) : Process :=
  match p.status with
  | Status.running =>
    { trace := p.trace ++ [e]
      status :=
        match e with
        | Effect.processExit code => Status.exited code
        | Effect.typeError => Status.threw
        | _ => Status.running }
  | _ => p

/-- The arrow function passed to `.run(...)` (develop.js:40-54). `err` is
`null` (`none`) or an error object, which is truthy; `stats` is `undefined`
(`none`) when the compiler reports `err`. -/
def onComplete (err : Option WebpackError) (stats : Option Stats) : Process :=
  let afterBranch :=
    match err with
    | some e => (Process.start.perform (Effect.consoleError e)).perform (Effect.processExit 1)
    | none => Process.start.perform (Effect.callback [])
  match stats with
  | some s =>
    afterBranch.perform (Effect.consoleLog (s.toString { chunks := false, colors := true }))
  | none => afterBranch.perform Effect.typeError

/-- The first argument of `run`: `{ routes, fileContents, manifestConfig }`. -/
structure RunArguments where
  routes : List String
  fileContents : List (String × String)
  manifestConfig : ManifestConfig

/-- `run({ routes, fileContents, manifestConfig }, callback)`. The compiler
`webpack(config).run` is external: `webpack` gives, for a configuration, the
pair `(err, stats)` with which it calls the completion handler. -/
def run (env : Env) (webpack : Configuration → Option WebpackError × Option Stats)
    (arguments : RunArguments) : Process :=
  let outcome :=
    webpack
      (webpackOptions env true arguments.routes
        { debug := false
          fileContents := arguments.fileContents
          manifestConfig := arguments.manifestConfig })
  onComplete outcome.1 outcome.2

/-- The argument lists of the calls of the callback, in order. -/
def Process.callbackCalls (p : Process) : List (List String) :=
  p.trace.filterMap fun e =>
    match e with
    | Effect.callback args => some args
    | _ => none

/-! ## Stages and the service-worker cache filter -/

/-- The class name of a plugin instance. -/
def Plugin.name : Plugin → String
  | Plugin.CopyPlugin _ => "CopyPlugin"
  | Plugin.ImageminPlugin _ => "ImageminPlugin"
  | Plugin.PrerenderSPAPlugin _ => "PrerenderSPAPlugin"
  | Plugin.HTMLWebpackPlugin _ => "HTMLWebpackPlugin"
  | Plugin.FaviconsWebpackPlugin _ => "FaviconsWebpackPlugin"
  | Plugin.GenerateSW _ => "GenerateSW"
  | Plugin.AddFilesPlugin _ => "AddFilesPlugin"

/-- The stage names of the specification that are realised by a plugin. -/
inductive Stage where
  | CopyStaticAssets
  | OptimizeImages
  | InjectGeneratedFiles
  | GenerateIcons
  | PrerenderRoutes
  | GenerateServiceWorker
  deriving DecidableEq, Repr

/-- The stage a plugin realises; `HTMLWebpackPlugin` (the HTML template) is
not one of the declared stages. -/
def Plugin.stage : Plugin → Option Stage
  | Plugin.CopyPlugin _ => some Stage.CopyStaticAssets
  | Plugin.ImageminPlugin _ => some Stage.OptimizeImages
  | Plugin.PrerenderSPAPlugin _ => some Stage.PrerenderRoutes
  | Plugin.HTMLWebpackPlugin _ => none
  | Plugin.FaviconsWebpackPlugin _ => some Stage.GenerateIcons
  | Plugin.GenerateSW _ => some Stage.GenerateServiceWorker
  | Plugin.AddFilesPlugin _ => some Stage.InjectGeneratedFiles

/-- The stages of a configuration, in the order of its plugin list. -/
def Configuration.stages (c : Configuration) : List Stage :=
  c.plugins.filterMap Plugin.stage

/-- The payload of the first `AddFilesPlugin` of the plugin list, if any. -/
def Configuration.addedFiles (c : Configuration) : Option (List AddedFile) :=
  c.plugins.findSome? fun p =>
    match p with
    | Plugin.AddFilesPlugin files => some files
    | _ => none

/-- The options of the first `GenerateSW` of the plugin list, if any. -/
def Configuration.generateSW (c : Configuration) : Option GenerateSWOptions :=
  c.plugins.findSome? fun p =>
    match p with
    | Plugin.GenerateSW options => some options
    | _ => none

/-- `ModuleFilenameHelpers.matchPart(str, test)` of webpack for an array of
regular expressions: some element matches. -/
def matchPart (str : JSString) (test : List RegExp) : Bool :=
  test.any fun r => r.test str

/-- The filter `GenerateSW` applies to each output file name, webpack's
`ModuleFilenameHelpers.matchObject` with the `include` and `exclude` options:
the name must match `include` and must not match `exclude`. -/
def GenerateSWOptions.accepts (options : GenerateSWOptions) (file : JSString) : Bool :=
  matchPart file options.include_ && !matchPart file options.exclude

/-! ## Concrete inputs used in the examples -/

/-- A Node.js environment with textual `path` and `require.resolve`. -/
def sampleEnv : Env :=
  { cwd := "/site"
    dirname := "/site/node_modules/elm-pages/generator/src"
    pathJoin := fun a b => a ++ "/" ++ b
    pathResolve := fun a b => a ++ "/" ++ b
    requireResolve := fun name => "/site/node_modules/" ++ name }

/-- A manifest configuration. -/
def sampleManifest : ManifestConfig :=
  { sourceIcon := "icon.svg"
    name := "Site"
    short_name := "Site"
    description := "A site"
    background_color := "#ffffff"
    theme_color := "#ffffff"
    display := "standalone"
    orientation := "portrait"
    serviceworker := { scope := "/" }
    start_url := "/" }

/-- Options with one generated file. -/
def sampleOptions : Options :=
  { debug := false
    fileContents := [("content.txt", "hello")]
    manifestConfig := sampleManifest }

/-- Options with no generated file. -/
def emptyOptions : Options :=
  { debug := false
    fileContents := []
    manifestConfig := sampleManifest }

/-- A compilation that finished with a recorded error. -/
def failedStats : Stats :=
  { errors := ["Module not found: Error: cannot resolve ./Main.elm"]
    toString := fun _ => "ERROR in ./index.js" }

/-- A compiler that reports no `err` and hands over `failedStats`. -/
def failingCompiler (_config : Configuration) : Option WebpackError × Option Stats :=
  (none, some failedStats)

/-- The order of the stages as the specification's registry declares it. -/
def registryOrder : List Stage :=
  [ Stage.CopyStaticAssets, Stage.OptimizeImages, Stage.InjectGeneratedFiles,
    Stage.GenerateIcons, Stage.PrerenderRoutes, Stage.GenerateServiceWorker ]

/-- The service-worker cache filter of a configuration: the filter of its
`GenerateSW` plugin (no file is cached without one). -/
def Configuration.cacheFilter (c : Configuration) (file : JSString) : Bool :=
  match c.generateSW with
  | some options => options.accepts file
  | none => false

/-- The include side of the cache filter as the specification words it: the
path is `index.html`, or ends in `.js`, or is a `content.txt` (ends in
`content.txt`), or ends in one of the image extensions. -/
def claimedInclude (path : JSString) : Bool :=
  path == utf16 "index.html" || (utf16 ".js").isSuffixOf path ||
    (utf16 "content.txt").isSuffixOf path ||
    [".png", ".gif", ".jpg", ".jpeg", ".svg"].any fun ext => (utf16 ext).isSuffixOf path

/-- An exclude rule `name*.png` as the specification words it, a file-name
pattern whose match ends in `.png`: the path holds `name` and, somewhere
after it, ends in `.png`. -/
def claimedGlob (name : String) (path : JSString) : Bool :=
  path.tails.any fun t =>
    (utf16 name).isPrefixOf t && (utf16 ".png").isSuffixOf (t.drop (utf16 name).length)

/-- The cache filter as the specification words it: an include rule matches
and none of the three exclude rules does. -/
def claimedAccepts (path : JSString) : Bool :=
  claimedInclude path &&
    !(["android-chrome-", "apple-touch-icon", "favicon-"].any fun name =>
      claimedGlob name path)

/-! ## Lemmas on strings -/

theorem indexOfFrom_slash (seg rest : JSString) (k : Nat) (h : 47 ∉ seg) :
    indexOfFrom [47] (seg ++ 47 :: rest) k = ((k + seg.length : Nat) : Int) := by
  induction seg generalizing k with
  | nil => simp [indexOfFrom, List.isPrefixOf]
  | cons c cs ih =>
    have hc : c ≠ 47 := fun e => h (by simp [e])
    have hcs : 47 ∉ cs := fun e => h (by simp [e])
    simp [indexOfFrom, List.isPrefixOf, Ne.symm hc, ih (k+1) hcs]
    omega

theorem indexOfFrom_absent (p : JSString) (k : Nat) (h : 47 ∉ p) :
    indexOfFrom [47] p k = -1 := by
  induction p generalizing k with
  | nil => simp [indexOfFrom]
  | cons c cs ih =>
    have hc : c ≠ 47 := fun e => h (by simp [e])
    have hcs : 47 ∉ cs := fun e => h (by simp [e])
    simp [indexOfFrom, List.isPrefixOf, Ne.symm hc, ih (k+1) hcs]

theorem utf16_slash : utf16 "/" = [47] := by decide

theorem substring_suffix (s : JSString) (start : Int) : substring s start <:+ s := by
  unfold substring
  exact List.drop_suffix _ _

theorem transformPath_strips (seg rest abs : JSString) (h : 47 ∉ seg) :
    transformPath (seg ++ 47 :: rest) abs = rest := by
  unfold transformPath indexOf substring
  rw [utf16_slash, indexOfFrom_slash seg rest 0 h]
  have : (min (max (((0 + seg.length : Nat) : Int) + 1) 0) ((seg ++ 47 :: rest).length : Int)).toNat = seg.length + 1 := by
    simp
    omega
  simp only [this]
  simp

theorem transformPath_noslash (p abs : JSString) (h : 47 ∉ p) :
    transformPath p abs = p := by
  unfold transformPath indexOf substring
  rw [utf16_slash, indexOfFrom_absent p 0 h]
  simp

/-! ## Lemmas on the matcher -/

theorem canonicalize_false (u : CodeUnit) : canonicalize false u = u := by
  simp [canonicalize]

theorem mem_ends_units (n : Nat) (w s t : JSString) :
    t ∈ Re.ends false n (w.foldr (fun u r => Re.seq (Re.unit u) r) Re.empty) s ↔ s = w ++ t := by
  induction w generalizing s with
  | nil => simp [Re.ends, eq_comm]
  | cons c cs ih =>
    cases s with
    | nil => simp [Re.ends]
    | cons u r =>
      by_cases h : u = c
      · subst h
        simp [Re.ends, canonicalize_false, ih]
      · simp [Re.ends, canonicalize_false, h]

theorem mem_ends_lit (n : Nat) (w : String) (s t : JSString) :
    t ∈ Re.ends false n (Re.lit w) s ↔ s = utf16 w ++ t := by
  unfold Re.lit
  exact mem_ends_units n (utf16 w) s t

theorem ends_any_nil (ic : Bool) (n : Nat) : Re.ends ic n Re.any [] = [] := rfl

theorem ends_any_cons (ic : Bool) (n : Nat) (u : CodeUnit) (t : JSString) :
    Re.ends ic n Re.any (u :: t) = if isLineTerminator u then [] else [t] := rfl

theorem mem_starClosure_any (ic : Bool) (n fuel : Nat) (s t : JSString) (h : s.length ≤ fuel) :
    t ∈ starClosure (Re.ends ic n Re.any) fuel s ↔
      ∃ m, s = m ++ t ∧ ∀ u ∈ m, isLineTerminator u = false := by
  induction fuel generalizing s with
  | zero =>
    have hs : s = [] := List.length_eq_zero.mp (Nat.le_zero.mp h)
    subst hs
    simp only [starClosure, List.mem_singleton]
    constructor
    · intro ht; exact ⟨[], by simp [ht]⟩
    · rintro ⟨m, hm, -⟩
      have := List.append_eq_nil.mp hm.symm
      exact this.2
  | succ fuel ih =>
    cases s with
    | nil =>
      simp only [starClosure, ends_any_nil, List.filter_nil, List.flatMap_nil,
        List.mem_singleton]
      constructor
      · intro ht; exact ⟨[], by simp [ht]⟩
      · rintro ⟨m, hm, -⟩
        exact (List.append_eq_nil.mp hm.symm).2
    | cons u r =>
      have hr : r.length ≤ fuel := by simpa using h
      by_cases hu : isLineTerminator u = true
      · simp only [starClosure, ends_any_cons, hu, if_true, List.filter_nil, List.flatMap_nil,
          List.mem_singleton]
        constructor
        · intro ht; exact ⟨[], by simp [ht]⟩
        · rintro ⟨m, hm, hlt⟩
          cases m with
          | nil => simpa using hm.symm
          | cons v m' =>
            simp only [List.cons_append, List.cons.injEq] at hm
            have := hlt v (by simp)
            rw [← hm.1] at this
            simp [this] at hu
      · have hu' : isLineTerminator u = false := by simpa using hu
        have hfil : List.filter (fun t => decide (t.length < (u :: r).length)) [r] = [r] := by
          simp
        simp only [starClosure, ends_any_cons, hu', Bool.false_eq_true, if_false, hfil,
          List.flatMap_cons, List.flatMap_nil, List.append_nil, List.mem_cons, ih r hr]
        constructor
        · rintro (ht | ⟨m, hm, hlt⟩)
          · exact ⟨[], by simp [ht]⟩
          · refine ⟨u :: m, by simp [hm], ?_⟩
            intro v hv
            simp only [List.mem_cons] at hv
            rcases hv with hv | hv
            · exact hv ▸ hu'
            · exact hlt v hv
        · rintro ⟨m, hm, hlt⟩
          cases m with
          | nil => left; simpa using hm.symm
          | cons v m' =>
            right
            simp only [List.cons_append, List.cons.injEq] at hm
            exact ⟨m', hm.2, fun w hw => hlt w (by simp [hw])⟩

theorem test_iff (r : RegExp) (p : JSString) :
    r.test p = true ↔ ∃ a s t, p = a ++ s ∧ t ∈ Re.ends r.ignoreCase p.length r.source s := by
  unfold RegExp.test
  simp only [List.any_eq_true, List.mem_tails, Bool.not_eq_true', List.isEmpty_eq_false]
  constructor
  · rintro ⟨s, ⟨a, ha⟩, hs⟩
    obtain ⟨t, ht⟩ := List.exists_mem_of_ne_nil _ hs
    exact ⟨a, s, t, ha.symm, ht⟩
  · rintro ⟨a, s, t, hp, ht⟩
    exact ⟨s, ⟨a, hp.symm⟩, List.ne_nil_of_mem ht⟩

theorem mem_ends_seq (ic : Bool) (n : Nat) (a b : Re) (s t : JSString) :
    t ∈ Re.ends ic n (Re.seq a b) s ↔ ∃ m, m ∈ Re.ends ic n a s ∧ t ∈ Re.ends ic n b m := by
  simp only [Re.ends, List.mem_flatMap]

theorem mem_ends_alt (ic : Bool) (n : Nat) (a b : Re) (s t : JSString) :
    t ∈ Re.ends ic n (Re.alt a b) s ↔ t ∈ Re.ends ic n a s ∨ t ∈ Re.ends ic n b s := by
  simp only [Re.ends, List.mem_append]

theorem mem_ends_group (ic : Bool) (n : Nat) (c : Bool) (a : Re) (s t : JSString) :
    t ∈ Re.ends ic n (Re.group c a) s ↔ t ∈ Re.ends ic n a s := by
  simp only [Re.ends]

theorem mem_ends_eol (ic : Bool) (n : Nat) (s t : JSString) :
    t ∈ Re.ends ic n Re.eol s ↔ s = [] ∧ t = [] := by
  by_cases h : s = []
  · simp [Re.ends, h]
  · simp [Re.ends, h]

theorem mem_ends_bol (ic : Bool) (n : Nat) (s t : JSString) :
    t ∈ Re.ends ic n Re.bol s ↔ s.length = n ∧ t = s := by
  by_cases h : s.length = n
  · simp [Re.ends, h]
  · simp [Re.ends, h]

theorem mem_ends_star_any (ic : Bool) (n : Nat) (s t : JSString) :
    t ∈ Re.ends ic n (Re.star Re.any) s ↔
      ∃ m, s = m ++ t ∧ ∀ u ∈ m, isLineTerminator u = false := by
  simp only [Re.ends]
  exact mem_starClosure_any ic n s.length s t (Nat.le_refl _)

theorem test_literal_eol (w : String) (p : JSString) :
    RegExp.test { source := Re.seq (Re.lit w) Re.eol, ignoreCase := false } p = true ↔
      utf16 w <:+ p := by
  rw [test_iff]
  simp only [mem_ends_seq, mem_ends_lit, mem_ends_eol]
  constructor
  · rintro ⟨a, s, t, hp, m, hs, hm, -⟩
    exact ⟨a, by simp [hp, hs, hm]⟩
  · rintro ⟨a, ha⟩
    exact ⟨a, utf16 w, [], ha.symm, [], by simp, rfl, rfl⟩

theorem test_jsFile (p : JSString) : jsFile.test p = true ↔ utf16 ".js" <:+ p :=
  test_literal_eol ".js" p

theorem test_includeContentTxt (p : JSString) :
    includeContentTxt.test p = true ↔ utf16 "content.txt" <:+ p :=
  test_literal_eol "content.txt" p

theorem test_includeIndexHtml (p : JSString) :
    includeIndexHtml.test p = true ↔ p = utf16 "index.html" := by
  rw [test_iff]
  simp only [includeIndexHtml, mem_ends_seq, mem_ends_lit, mem_ends_eol, mem_ends_bol]
  constructor
  · rintro ⟨a, s, t, hp, m, ⟨hlen, hm⟩, m', hs, hm', -⟩
    subst hm hm'
    have ha : a = [] := by
      have := congrArg List.length hp
      simp only [List.length_append] at this
      exact List.length_eq_zero.mp (by omega)
    simp [hp, ha, hs]
  · intro hp
    exact ⟨[], p, [], by simp, p, ⟨rfl, rfl⟩, [], by simp [hp], rfl, rfl⟩

theorem test_imageFile (p : JSString) :
    imageFile.test p = true ↔
      utf16 ".png" <:+ p ∨ utf16 ".gif" <:+ p ∨ utf16 ".jpg" <:+ p ∨
        utf16 ".jpeg" <:+ p ∨ utf16 ".svg" <:+ p := by
  rw [test_iff]
  simp only [imageFile, mem_ends_seq, mem_ends_lit, mem_ends_eol, mem_ends_alt, mem_ends_group]
  constructor
  · rintro ⟨a, s, t, hp, m, hs, m', h, hm', -⟩
    subst hm'
    rcases h with h | h | h | h | h <;> subst h hs hp
    · exact Or.inl ⟨a, by rw [show utf16 ".png" = utf16 "." ++ (utf16 "png" ++ []) by decide]⟩
    · exact Or.inr (Or.inl
        ⟨a, by rw [show utf16 ".gif" = utf16 "." ++ (utf16 "gif" ++ []) by decide]⟩)
    · exact Or.inr (Or.inr (Or.inl
        ⟨a, by rw [show utf16 ".jpg" = utf16 "." ++ (utf16 "jpg" ++ []) by decide]⟩))
    · exact Or.inr (Or.inr (Or.inr (Or.inl
        ⟨a, by rw [show utf16 ".jpeg" = utf16 "." ++ (utf16 "jpeg" ++ []) by decide]⟩)))
    · exact Or.inr (Or.inr (Or.inr (Or.inr
        ⟨a, by rw [show utf16 ".svg" = utf16 "." ++ (utf16 "svg" ++ []) by decide]⟩)))
  · rintro (⟨a, ha⟩ | ⟨a, ha⟩ | ⟨a, ha⟩ | ⟨a, ha⟩ | ⟨a, ha⟩)
    · exact ⟨a, utf16 ".png", [], ha.symm, utf16 "png", by decide, [],
        Or.inl (by simp), rfl, rfl⟩
    · exact ⟨a, utf16 ".gif", [], ha.symm, utf16 "gif", by decide, [],
        Or.inr (Or.inl (by simp)), rfl, rfl⟩
    · exact ⟨a, utf16 ".jpg", [], ha.symm, utf16 "jpg", by decide, [],
        Or.inr (Or.inr (Or.inl (by simp))), rfl, rfl⟩
    · exact ⟨a, utf16 ".jpeg", [], ha.symm, utf16 "jpeg", by decide, [],
        Or.inr (Or.inr (Or.inr (Or.inl (by simp)))), rfl, rfl⟩
    · exact ⟨a, utf16 ".svg", [], ha.symm, utf16 "svg", by decide, [],
        Or.inr (Or.inr (Or.inr (Or.inr (by simp)))), rfl, rfl⟩

theorem test_excludeAndroidChrome (p : JSString) :
    excludeAndroidChrome.test p = true ↔
      ∃ a m, p = a ++ utf16 "android-chrome-" ++ m ++ utf16 ".png" ∧
        ∀ u ∈ m, isLineTerminator u = false := by
  rw [test_iff]
  simp only [excludeAndroidChrome, mem_ends_seq, mem_ends_lit, mem_ends_eol, mem_ends_star_any]
  constructor
  · rintro ⟨a, s, t, hp, x, hs, y, ⟨m, hx, hm⟩, z, hy, hz, -⟩
    refine ⟨a, m, ?_, hm⟩
    subst hz
    subst hy
    subst hx
    subst hs
    simp [hp]
  · rintro ⟨a, m, hp, hm⟩
    exact ⟨a, utf16 "android-chrome-" ++ m ++ utf16 ".png", [], by simp [hp],
      m ++ utf16 ".png", by simp, utf16 ".png", ⟨m, rfl, hm⟩, [], by simp, rfl, rfl⟩

theorem test_literal_any_literal (w : String) (p : JSString) :
    RegExp.test
        { source := Re.seq (Re.lit w) (Re.seq (Re.star Re.any) (Re.lit ".png"))
          ignoreCase := false } p = true ↔
      ∃ a m b, p = a ++ utf16 w ++ m ++ utf16 ".png" ++ b ∧
        ∀ u ∈ m, isLineTerminator u = false := by
  rw [test_iff]
  simp only [mem_ends_seq, mem_ends_lit, mem_ends_star_any]
  constructor
  · rintro ⟨a, s, t, hp, x, hs, y, ⟨m, hx, hm⟩, hy⟩
    refine ⟨a, m, t, ?_, hm⟩
    subst hy
    subst hx
    subst hs
    simp [hp]
  · rintro ⟨a, m, b, hp, hm⟩
    exact ⟨a, utf16 w ++ m ++ utf16 ".png" ++ b, b, by simp [hp],
      m ++ utf16 ".png" ++ b, by simp, utf16 ".png" ++ b, ⟨m, by simp, hm⟩, rfl⟩

theorem test_excludeAppleTouchIcon (p : JSString) :
    excludeAppleTouchIcon.test p = true ↔
      ∃ a m b, p = a ++ utf16 "apple-touch-icon" ++ m ++ utf16 ".png" ++ b ∧
        ∀ u ∈ m, isLineTerminator u = false :=
  test_literal_any_literal "apple-touch-icon" p

theorem test_excludeFavicon (p : JSString) :
    excludeFavicon.test p = true ↔
      ∃ a m b, p = a ++ utf16 "favicon-" ++ m ++ utf16 ".png" ++ b ∧
        ∀ u ∈ m, isLineTerminator u = false :=
  test_literal_any_literal "favicon-" p

/-! ## Lemmas on the plugin list -/

theorem plugins_development (env : Env) (routes : List String) (options : Options) :
    (webpackOptions env false routes options).plugins =
      commonPlugins env false routes options.manifestConfig := rfl

theorem plugins_production (env : Env) (routes : List String) (options : Options) :
    (webpackOptions env true routes options).plugins =
      commonPlugins env true routes options.manifestConfig ++
        [Plugin.AddFilesPlugin
          (options.fileContents.map fun pc => { name := pc.1, content := pc.2 })] := rfl

theorem generateSW_eq (env : Env) (production : Bool) (routes : List String)
    (options : Options) :
    ∃ sw : GenerateSWOptions,
      (webpackOptions env production routes options).generateSW = some sw ∧
      sw.include_ = [includeIndexHtml, jsFile, includeContentTxt, imageFile] ∧
      sw.exclude = [excludeAndroidChrome, excludeAppleTouchIcon, excludeFavicon] ∧
      sw.navigateFallback = "index.html" := by
  cases production
  · exact ⟨_, rfl, rfl, rfl, rfl⟩
  · exact ⟨_, rfl, rfl, rfl, rfl⟩

/-- What the cache filter computes on the regular expressions as they are
written at develop.js:147-157: a path is accepted exactly when it is
`index.html` or ends in `.js`, `content.txt`, `.png`, `.gif`, `.jpg`, `.jpeg`
or `.svg`, and no exclude expression matches it; the first exclude
expression ends in `$`, the other two do not. -/
theorem cacheFilter_characterisation (env : Env) (production : Bool) (routes : List String)
    (options : Options) :
    ∃ sw : GenerateSWOptions,
      (webpackOptions env production routes options).generateSW = some sw ∧
      sw.include_ = [includeIndexHtml, jsFile, includeContentTxt, imageFile] ∧
      sw.exclude = [excludeAndroidChrome, excludeAppleTouchIcon, excludeFavicon] ∧
      sw.navigateFallback = "index.html" ∧
      ∀ path : JSString,
        (webpackOptions env production routes options).cacheFilter path = sw.accepts path ∧
        (sw.accepts path = true ↔
          (path = utf16 "index.html" ∨ utf16 ".js" <:+ path ∨ utf16 "content.txt" <:+ path ∨
            utf16 ".png" <:+ path ∨ utf16 ".gif" <:+ path ∨ utf16 ".jpg" <:+ path ∨
            utf16 ".jpeg" <:+ path ∨ utf16 ".svg" <:+ path) ∧
          ¬ ((∃ a m, path = a ++ utf16 "android-chrome-" ++ m ++ utf16 ".png" ∧
                ∀ u ∈ m, isLineTerminator u = false) ∨
              (∃ a m b, path = a ++ utf16 "apple-touch-icon" ++ m ++ utf16 ".png" ++ b ∧
                ∀ u ∈ m, isLineTerminator u = false) ∨
              (∃ a m b, path = a ++ utf16 "favicon-" ++ m ++ utf16 ".png" ++ b ∧
                ∀ u ∈ m, isLineTerminator u = false))) := by
  obtain ⟨sw, hsw, hi, he, hn⟩ := generateSW_eq env production routes options
  refine ⟨sw, hsw, hi, he, hn, fun path => ⟨?_, ?_⟩⟩
  · simp only [Configuration.cacheFilter, hsw]
  · simp only [GenerateSWOptions.accepts, matchPart, hi, he, List.any_cons, List.any_nil,
      Bool.or_false, Bool.and_eq_true, Bool.or_eq_true, Bool.not_eq_true',
      ← Bool.not_eq_true, test_includeIndexHtml, test_jsFile, test_includeContentTxt,
      test_imageFile, test_excludeAndroidChrome, test_excludeAppleTouchIcon,
      test_excludeFavicon]

/-! ## The claims -/

/-- C1: for a destination path `seg/rest` whose first segment `seg` has no
`/`, `transformPath` returns exactly `rest`; in particular
`static/img/logo.png` is mapped to `img/logo.png`. -/
theorem transformPath_strips_first_segment (seg rest absolutePath : JSString)
    (h : ∀ u ∈ utf16 "/", u ∉ seg) :
    transformPath (seg ++ utf16 "/" ++ rest) absolutePath = rest ∧
      transformPath (utf16 "static/img/logo.png") absolutePath = utf16 "img/logo.png" := by
  have h47 : 47 ∉ seg := h 47 (by decide)
  refine ⟨?_, ?_⟩
  · rw [utf16_slash, List.append_assoc]
    exact transformPath_strips seg rest absolutePath h47
  · have e : utf16 "static/img/logo.png" = utf16 "static" ++ 47 :: utf16 "img/logo.png" := by
      decide
    rw [e]
    exact transformPath_strips _ _ absolutePath (by decide)

/-- C1 (witness): the path `vendor/a/b.css` loses its first segment. -/
theorem transformPath_strips_first_segment_witness :
    (∀ u ∈ utf16 "/", u ∉ utf16 "vendor") ∧
      transformPath (utf16 "vendor" ++ utf16 "/" ++ utf16 "a/b.css") (utf16 "/abs/a/b.css")
        = utf16 "a/b.css" :=
  ⟨by decide,
    (transformPath_strips_first_segment (utf16 "vendor") (utf16 "a/b.css")
      (utf16 "/abs/a/b.css") (by decide)).1⟩

/-- C10: a destination path without `/` is returned unchanged, so the result
is empty only if the path is; and for every path the result is a suffix of
the path. -/
theorem transformPath_without_slash (targetPath absolutePath : JSString)
    (h : ∀ u ∈ utf16 "/", u ∉ targetPath) :
    transformPath targetPath absolutePath = targetPath ∧
      (transformPath targetPath absolutePath = [] → targetPath = []) ∧
      ∀ anyPath : JSString, transformPath anyPath absolutePath <:+ anyPath := by
  have h47 : 47 ∉ targetPath := h 47 (by decide)
  have e := transformPath_noslash targetPath absolutePath h47
  refine ⟨e, fun h0 => by rw [e] at h0; exact h0, fun q => ?_⟩
  unfold transformPath
  exact substring_suffix _ _

/-- C10 (witness): the path `robots.txt` is returned unchanged. -/
theorem transformPath_without_slash_witness :
    (∀ u ∈ utf16 "/", u ∉ utf16 "robots.txt") ∧
      transformPath (utf16 "robots.txt") [] = utf16 "robots.txt" :=
  ⟨by decide, (transformPath_without_slash (utf16 "robots.txt") [] (by decide)).1⟩

/-- C2: the completion handler of `run` calls the callback exactly once, with
no arguments, when `err` is `null`, and never when `err` is an error; in that
case it logs the error and exits with status 1, and nothing else happens. -/
theorem onComplete_callback_iff_no_err :
    (∀ stats : Option Stats, (onComplete none stats).callbackCalls = [[]]) ∧
      (∀ (e : WebpackError) (stats : Option Stats),
        (onComplete (some e) stats).callbackCalls = [] ∧
          (onComplete (some e) stats).trace = [Effect.consoleError e, Effect.processExit 1] ∧
          (onComplete (some e) stats).status = Status.exited 1) ∧
      ∀ (env : Env) (webpack : Configuration → Option WebpackError × Option Stats)
        (arguments : RunArguments),
        run env webpack arguments =
          onComplete
            (webpack (webpackOptions env true arguments.routes
              { debug := false
                fileContents := arguments.fileContents
                manifestConfig := arguments.manifestConfig })).1
            (webpack (webpackOptions env true arguments.routes
              { debug := false
                fileContents := arguments.fileContents
                manifestConfig := arguments.manifestConfig })).2 := by
  refine ⟨?_, ?_, ?_⟩
  · intro stats
    cases stats <;> rfl
  · intro e stats
    cases stats <;> exact ⟨rfl, rfl, rfl⟩
  · intro env webpack arguments
    rfl

/-- C3 (the code at the failing input): when the compiler reports no `err`
but the stats record a compilation error, `run` calls the callback and the
process does not exit. -/
theorem run_calls_callback_on_compilation_errors :
    failedStats.hasErrors = true ∧
      (run sampleEnv failingCompiler
        { routes := ["/"], fileContents := [], manifestConfig := sampleManifest }).callbackCalls
        = [[]] ∧
      (run sampleEnv failingCompiler
        { routes := ["/"], fileContents := [], manifestConfig := sampleManifest }).status
        = Status.running := by
  refine ⟨by decide, rfl, rfl⟩

/-- C4 (counterexample): in production mode the last plugin is
`AddFilesPlugin`, not `GenerateSW`. -/
theorem generateSW_not_last_in_production :
    ¬ ∃ o : GenerateSWOptions,
      (webpackOptions sampleEnv true ["/"] sampleOptions).plugins.getLast? =
        some (Plugin.GenerateSW o) := by
  rintro ⟨o, h⟩
  simp [plugins_production, commonPlugins] at h

/-- C4 (amended): in development mode the last plugin is `GenerateSW`; in
production mode the last plugin is `AddFilesPlugin` and `GenerateSW` is the
one right before it. -/
theorem generateSW_last_common_plugin (env : Env) (routes : List String) (options : Options) :
    ((webpackOptions env false routes options).plugins.getLast?.map Plugin.name
        = some "GenerateSW") ∧
      ((webpackOptions env true routes options).plugins.getLast?.map Plugin.name
        = some "AddFilesPlugin") ∧
      ((webpackOptions env true routes options).plugins.dropLast.getLast?.map Plugin.name
        = some "GenerateSW") := by
  refine ⟨?_, ?_, ?_⟩
  · simp [plugins_development, commonPlugins, Plugin.name]
  · simp [plugins_production, commonPlugins, Plugin.name]
  · simp [plugins_production, commonPlugins, Plugin.name]

/-- C5 (counterexample): the stages of the development configuration are not
a subsequence of the registry order, since `PrerenderRoutes` comes before
`GenerateIcons`. -/
theorem stages_not_in_registry_order :
    (webpackOptions sampleEnv false ["/"] sampleOptions).stages =
        [ Stage.CopyStaticAssets, Stage.OptimizeImages, Stage.PrerenderRoutes,
          Stage.GenerateIcons, Stage.GenerateServiceWorker ] ∧
      ¬ List.Sublist (webpackOptions sampleEnv false ["/"] sampleOptions).stages
          registryOrder := by
  have e : (webpackOptions sampleEnv false ["/"] sampleOptions).stages =
      [ Stage.CopyStaticAssets, Stage.OptimizeImages, Stage.PrerenderRoutes,
        Stage.GenerateIcons, Stage.GenerateServiceWorker ] := rfl
  refine ⟨e, ?_⟩
  rw [e]
  decide

/-- C5 (amended): the plugin list is `CopyPlugin`, `ImageminPlugin`,
`PrerenderSPAPlugin`, `HTMLWebpackPlugin`, `FaviconsWebpackPlugin`,
`GenerateSW`, followed in production only by `AddFilesPlugin`; so the stages
are in the order CopyStaticAssets, OptimizeImages, PrerenderRoutes,
GenerateIcons, GenerateServiceWorker and, in production, InjectGeneratedFiles
last. -/
theorem stages_order (env : Env) (production : Bool) (routes : List String)
    (options : Options) :
    (webpackOptions env production routes options).plugins.map Plugin.name =
        [ "CopyPlugin", "ImageminPlugin", "PrerenderSPAPlugin", "HTMLWebpackPlugin",
          "FaviconsWebpackPlugin", "GenerateSW" ]
          ++ (if production then ["AddFilesPlugin"] else []) ∧
      (webpackOptions env production routes options).stages =
        [ Stage.CopyStaticAssets, Stage.OptimizeImages, Stage.PrerenderRoutes,
          Stage.GenerateIcons, Stage.GenerateServiceWorker ]
          ++ (if production then [Stage.InjectGeneratedFiles] else []) := by
  cases production
  · exact ⟨rfl, rfl⟩
  · exact ⟨rfl, rfl⟩

/-- C6: with empty `fileContents`, the development and the production
configuration have the same plugins with the same options at the same
positions, except that `ImageminPlugin` has `disable: true` in development
and `disable: false` in production and that production has `AddFilesPlugin`
appended; both have the same five common rules followed by one Elm rule
(hot loader plus `debug`/`forceWatch` in development, `optimize: true` in
production); `mode` differs and every other key is equal. -/
theorem development_production_difference (env : Env) (routes : List String)
    (manifestConfig : ManifestConfig) (debug debug' : Bool) :
    ∃ (copy prerender html favicons generateSW : Plugin) (imagemin : ImageminOptions)
      (rules : List Rule),
      (webpackOptions env false routes
          { debug := debug, fileContents := [], manifestConfig := manifestConfig }).plugins =
        [ copy, Plugin.ImageminPlugin { imagemin with disable := true }, prerender, html,
          favicons, generateSW ] ∧
      (webpackOptions env true routes
          { debug := debug', fileContents := [], manifestConfig := manifestConfig }).plugins =
        [ copy, Plugin.ImageminPlugin { imagemin with disable := false }, prerender, html,
          favicons, generateSW, Plugin.AddFilesPlugin [] ] ∧
      [copy, prerender, html, favicons, generateSW].map Plugin.name =
        [ "CopyPlugin", "PrerenderSPAPlugin", "HTMLWebpackPlugin", "FaviconsWebpackPlugin",
          "GenerateSW" ] ∧
      rules.length = 5 ∧
      (webpackOptions env false routes
          { debug := debug, fileContents := [], manifestConfig := manifestConfig }).module.rules =
        rules ++ [developmentElmRule env debug] ∧
      (webpackOptions env true routes
          { debug := debug', fileContents := [], manifestConfig := manifestConfig }).module.rules =
        rules ++ [productionElmRule env] ∧
      (developmentElmRule env debug).test = (productionElmRule env).test ∧
      (developmentElmRule env debug).exclude = (productionElmRule env).exclude ∧
      (developmentElmRule env debug).use = some (Use.array
        [ { loader := env.requireResolve "elm-hot-webpack-loader", options := none },
          { loader := env.requireResolve "elm-webpack-loader"
            options := some
              { optimize := none, debug := some debug, forceWatch := some true } } ]) ∧
      (productionElmRule env).use = some (Use.object
        { loader := env.requireResolve "elm-webpack-loader"
          options := some { optimize := some true, debug := none, forceWatch := none } }) ∧
      (webpackOptions env false routes
          { debug := debug, fileContents := [], manifestConfig := manifestConfig }).mode =
        "development" ∧
      (webpackOptions env true routes
          { debug := debug', fileContents := [], manifestConfig := manifestConfig }).mode =
        "production" ∧
      (webpackOptions env false routes
          { debug := debug, fileContents := [], manifestConfig := manifestConfig }).entry =
        (webpackOptions env true routes
          { debug := debug', fileContents := [], manifestConfig := manifestConfig }).entry ∧
      (webpackOptions env false routes
          { debug := debug, fileContents := [], manifestConfig := manifestConfig }).output =
        (webpackOptions env true routes
          { debug := debug', fileContents := [], manifestConfig := manifestConfig }).output ∧
      (webpackOptions env false routes
          { debug := debug, fileContents := [], manifestConfig := manifestConfig }).resolve =
        (webpackOptions env true routes
          { debug := debug', fileContents := [], manifestConfig := manifestConfig }).resolve ∧
      (webpackOptions env false routes
          { debug := debug, fileContents := [], manifestConfig := manifestConfig }).stats =
        (webpackOptions env true routes
          { debug := debug', fileContents := [], manifestConfig := manifestConfig }).stats := by
  refine ⟨_, _, _, _, _,
    { test := imageminTest
      disable := true
      pngquant := { quality := "40-70", speed := 1 }
      plugins := [ImageminCodec.imageminMozjpeg { quality := 75, progressive := false }] },
    commonRules env, rfl, rfl, rfl, rfl, rfl, rfl, rfl, rfl, rfl, rfl, rfl, rfl, rfl, rfl, rfl,
    rfl⟩

/-- C7 (counterexample): in production mode with an empty `fileContents`
the `AddFilesPlugin` stage is present in the plugin list. -/
theorem addFilesPlugin_present_with_empty_fileContents :
    ¬ ((webpackOptions sampleEnv true ["/"] emptyOptions).stages.contains
          Stage.InjectGeneratedFiles = true ↔
        ((true = true) ∧ emptyOptions.fileContents ≠ [])) := by
  have e : (webpackOptions sampleEnv true ["/"] emptyOptions).stages.contains
      Stage.InjectGeneratedFiles = true := by decide
  have f : emptyOptions.fileContents = [] := rfl
  intro h
  exact (h.mp e).2 f

/-- C7 (amended): the `AddFilesPlugin` stage is present in the plugin list
exactly when `production` is true, whatever `fileContents` is; with an empty
`fileContents` it is present with an empty payload. -/
theorem addFilesPlugin_present_iff_production (env : Env) (production : Bool)
    (routes : List String) (options : Options) :
    (webpackOptions env production routes options).stages.contains
        Stage.InjectGeneratedFiles = production ∧
      (webpackOptions env true routes { options with fileContents := [] }).addedFiles
        = some [] ∧
      (webpackOptions env false routes options).addedFiles = none := by
  refine ⟨?_, rfl, rfl⟩
  cases production <;> rfl

/-- C8: in production mode the payload of `AddFilesPlugin` has the length
and the order of `fileContents`, its i-th entry having the i-th path as
`name` and the i-th content as `content`. -/
theorem addedFiles_payload (env : Env) (routes : List String) (options : Options) :
    ∃ payload : List AddedFile,
      (webpackOptions env true routes options).addedFiles = some payload ∧
      (webpackOptions env true routes options).plugins.getLast? =
        some (Plugin.AddFilesPlugin payload) ∧
      payload.length = options.fileContents.length ∧
      (∀ i : Nat, payload[i]? =
        options.fileContents[i]?.map fun pc => { name := pc.1, content := pc.2 }) ∧
      payload.map (fun f => (f.name, f.content)) = options.fileContents := by
  refine ⟨options.fileContents.map fun (pc : String × String) =>
    ({ name := pc.1, content := pc.2 } : AddedFile), ?_, ?_, ?_, ?_, ?_⟩
  · rfl
  · simp [plugins_production]
  · simp
  · intro i
    simp
  · simp [Function.comp_def]

/-- C9 (the code at the failing inputs): the file names
`apple-touch-icon.png.js` and `favicon-x.png.js` end in `.js` and not in
`.png`, so the filter of the claim accepts them, but the code rejects them,
because `/apple-touch-icon.*\.png/` and `/favicon-.*\.png/` lack the `$` of
their sibling `/android-chrome-.*\.png$/`; on `android-chrome-x.png.js` the
code and the claim agree. -/
theorem cacheFilter_rejects_js_after_icon_name :
    ((webpackOptions sampleEnv true ["/"] sampleOptions).cacheFilter
          (utf16 "apple-touch-icon.png.js") = false ∧
        claimedAccepts (utf16 "apple-touch-icon.png.js") = true) ∧
      ((webpackOptions sampleEnv true ["/"] sampleOptions).cacheFilter
          (utf16 "favicon-x.png.js") = false ∧
        claimedAccepts (utf16 "favicon-x.png.js") = true) ∧
      ((webpackOptions sampleEnv true ["/"] sampleOptions).cacheFilter
          (utf16 "android-chrome-x.png.js") = true ∧
        claimedAccepts (utf16 "android-chrome-x.png.js") = true) := by
  have e : ∀ file, (webpackOptions sampleEnv true ["/"] sampleOptions).cacheFilter file =
      GenerateSWOptions.accepts
        { include_ := [includeIndexHtml, jsFile, includeContentTxt, imageFile]
          exclude := [excludeAndroidChrome, excludeAppleTouchIcon, excludeFavicon]
          navigateFallback := "index.html"
          swDest := "service-worker.js"
          runtimeCaching :=
            [ { urlPattern := fontsGstatic
                handler := "CacheFirst"
                options := { cacheName := "google-fonts-webfonts" } },
              { urlPattern := fontsGoogleapis
                handler := "StaleWhileRevalidate"
                options := { cacheName := "google-fonts-stylesheets" } },
              { urlPattern := imageFile
                handler := "CacheFirst"
                options := { cacheName := "images" } } ] } file := fun _ => rfl
  rw [e, e, e]
  refine ⟨⟨by decide, by decide⟩, ⟨by decide, by decide⟩, ⟨by decide, by decide⟩⟩

end Develop
